import Mathlib

/-
Verification development for the SmashEnglishWithGemini repository.

The definitions below are a shallow embedding of the TypeScript sources:
  * types.ts                      (data model records)
  * services/geminiService.ts     (getModelConfig, decode, decodeAudioData,
                                   generateSpeech, analyzeSentence, lookupWord,
                                   evaluateWriting, getChatResponse)
  * components/ResultDisplay.tsx  (audio prefetch effect and playAudio)
  * components/WritingPage.tsx    (copyFullText and the syntax-view full text)
  * App.tsx                       (assistant context selection)

Network transport, the browser AudioContext, JSON.parse and atob are platform
primitives outside the repository; they are modelled as explicit inputs
(response text, parse oracles, already-base64-decoded binary strings).  All
other computation is translated directly from the source.
-/

/- ===================== Data model (types.ts) ===================== -/

inductive SegmentType where
  | unchanged
  | change
deriving DecidableEq, Repr

inductive SegmentCategory where
  | grammar
  | vocabulary
  | style
  | collocation
  | punctuation
deriving DecidableEq, Repr

/-- WritingSegment from types.ts: a span of the improved document, either
unchanged or a change carrying the original text, a reason and a category. -/
structure WritingSegment where
  type : SegmentType
  text : String
  original : Option String := none
  reason : Option String := none
  category : Option SegmentCategory := none
deriving DecidableEq, Repr

inductive WritingMode where
  | fix
  | ielts55
  | ielts60
  | ielts65
  | ielts70
  | ielts75
  | ielts80
deriving DecidableEq, Repr

/-- WritingResult from types.ts. -/
structure WritingResult where
  mode : WritingMode
  generalFeedback : String
  segments : List WritingSegment
deriving DecidableEq, Repr

structure AnalysisChunk where
  text : String
  grammarDescription : String
  partOfSpeech : String
  role : String
deriving DecidableEq, Repr

structure DetailedToken where
  text : String
  partOfSpeech : String
  role : String
  explanation : String
  meaning : String
deriving DecidableEq, Repr

inductive ChangeType where
  | add
  | remove
  | keep
deriving DecidableEq, Repr

structure CorrectionChange where
  type : ChangeType
  text : String
deriving DecidableEq, Repr

structure Correction where
  original : String
  corrected : String
  errorType : String
  reason : String
  changes : List CorrectionChange
deriving DecidableEq, Repr

/-- AnalysisResult from types.ts, as returned by analyzeSentence. -/
structure AnalysisResult where
  chunks : List AnalysisChunk
  detailedTokens : List DetailedToken
  chineseTranslation : String
  englishSentence : String
  correction : Option Correction := none
  sentencePattern : String := ""
  mainTense : String := ""
deriving DecidableEq, Repr

/-- Shape of the JSON object analyzeSentence parses out of the model response
(the declared responseSchema: everything of AnalysisResult except the
englishSentence field, which the service adds itself). -/
structure ParsedAnalysis where
  chunks : List AnalysisChunk
  detailedTokens : List DetailedToken
  chineseTranslation : String
  correction : Option Correction := none
  sentencePattern : String := ""
  mainTense : String := ""
deriving DecidableEq, Repr

/-- DictionaryDefinition from types.ts; the source field `example` is a Lean
keyword and is rendered here as exampleSentence. -/
structure DictionaryDefinition where
  meaning : String
  explanation : String
  exampleSentence : String
  exampleTranslation : String
deriving DecidableEq, Repr

/-- DictionaryCollocation from types.ts; the source field `example` is a Lean
keyword and is rendered here as exampleSentence. -/
structure DictionaryCollocation where
  phrase : String
  meaning : String
  exampleSentence : String
  exampleTranslation : String
deriving DecidableEq, Repr

structure DictionaryEntry where
  partOfSpeech : String
  cocaFrequency : Option String := none
  definitions : List DictionaryDefinition
deriving DecidableEq, Repr

structure DictionaryResult where
  word : String
  phonetic : String
  entries : List DictionaryEntry
  collocations : List DictionaryCollocation := []
deriving DecidableEq, Repr

/-- Shape of the JSON object evaluateWriting parses out of the model
response (generalFeedback plus the segment list). -/
structure ParsedWriting where
  generalFeedback : String
  segments : List WritingSegment
deriving DecidableEq, Repr

inductive ModelLevel where
  | mini
  | quick
  | deep
deriving DecidableEq, Repr

/- ===================== Service layer (geminiService.ts) ===================== -/

structure ModelConfig where
  model : String
  thinkingBudget : Nat
deriving DecidableEq, Repr

/-- getModelConfig (geminiService.ts lines 10-25). -/
def getModelConfig (level : ModelLevel) : ModelConfig :=
  match level with
  | ModelLevel.mini => { model := "gemini-2.5-flash", thinkingBudget := 0 }
  | ModelLevel.quick => { model := "gemini-2.5-flash", thinkingBudget := 500 }
  | ModelLevel.deep => { model := "gemini-2.5-flash", thinkingBudget := 2000 }

/-- The request configuration each text operation sends: the model name, the
optional thinkingConfig (present only when the budget is positive, mirroring
the conditional `thinkingBudget > 0 ? { thinkingBudget } : undefined`), and
the response MIME type. -/
structure GenRequest where
  model : String
  thinkingConfig : Option Nat
  responseMimeType : String
deriving DecidableEq, Repr

/-- Request configuration built by analyzeSentence (lines 162-167). -/
def analyzeSentenceRequest (modelLevel : ModelLevel) : GenRequest :=
  { model := (getModelConfig modelLevel).model
    thinkingConfig :=
      if (getModelConfig modelLevel).thinkingBudget > 0 then
        some (getModelConfig modelLevel).thinkingBudget
      else none
    responseMimeType := "application/json" }

/-- Request configuration built by lookupWord (lines 287-291). -/
def lookupWordRequest (modelLevel : ModelLevel) : GenRequest :=
  { model := (getModelConfig modelLevel).model
    thinkingConfig :=
      if (getModelConfig modelLevel).thinkingBudget > 0 then
        some (getModelConfig modelLevel).thinkingBudget
      else none
    responseMimeType := "application/json" }

/-- Request configuration built by evaluateWriting (lines 462-467). -/
def evaluateWritingRequest (modelLevel : ModelLevel) : GenRequest :=
  { model := (getModelConfig modelLevel).model
    thinkingConfig :=
      if (getModelConfig modelLevel).thinkingBudget > 0 then
        some (getModelConfig modelLevel).thinkingBudget
      else none
    responseMimeType := "application/json" }

/-- Client initialisation (geminiService.ts lines 4-7):
`const ai = apiKey ? new GoogleGenAI(...) : null`.  Returns whether the
client is non-null; an unset or empty API_KEY string is falsy in JS. -/
def aiInit (apiKey : Option String) : Bool :=
  match apiKey with
  | none => false
  | some k => !(k == "")

/- ===================== Audio helpers (geminiService.ts lines 39-66) ===================== -/

/-- decode (lines 39-47): `bytes[i] = binaryString.charCodeAt(i)` over a
Uint8Array of the same length.  atob, the browser base64 primitive, lives
outside the repository and is modelled as supplying its output directly: the
argument is the already-base64-decoded binary string.  Storing into a
Uint8Array truncates each code unit modulo 256, which the Fin 256 value
records. -/
def decode (binaryString : String) : List (Fin 256) :=
  binaryString.data.map (fun c => ⟨c.toNat % 256, Nat.mod_lt _ (by norm_num)⟩)

/-- View of the byte array as an Int16Array (line 55): consecutive
little-endian byte pairs reinterpreted as signed 16-bit integers.  The
single-byte case is unreachable under the even-length guard of
decodeAudioData (an Int16Array over an odd-length buffer throws first). -/
def bytesToInt16 : List (Fin 256) → List Int
  | [] => []
  | [_] => []
  | lo :: hi :: rest =>
      (if lo.val + 256 * hi.val < 32768 then ((lo.val + 256 * hi.val : Nat) : Int)
       else ((lo.val + 256 * hi.val : Nat) : Int) - 65536) :: bytesToInt16 rest

/-- Model of the Web Audio AudioBuffer produced by ctx.createBuffer and the
fill loops: sample rate, channel count, frame count (the buffer length) and
the per-channel float samples, rendered as exact rationals. -/
structure AudioBufferModel where
  sampleRate : Nat
  numChannels : Nat
  length : Nat
  channels : List (List ℚ)
deriving DecidableEq, Repr

/-- decodeAudioData (lines 49-66).  `new Int16Array(data.buffer)` throws a
RangeError when the byte length is odd; otherwise frameCount is
dataInt16.length / numChannels and
`channelData[i] = dataInt16[i * numChannels + channel] / 32768.0`. -/
def decodeAudioData (data : List (Fin 256)) (sampleRate : Nat) (numChannels : Nat) :
    Except String AudioBufferModel :=
  if data.length % 2 ≠ 0 then
    Except.error "byte length of Int16Array should be a multiple of 2"
  else
    Except.ok
      { sampleRate := sampleRate
        numChannels := numChannels
        length := (bytesToInt16 data).length / numChannels
        channels :=
          (List.range numChannels).map fun channel =>
            (List.range ((bytesToInt16 data).length / numChannels)).map fun i =>
              ((bytesToInt16 data).getD (i * numChannels + channel) 0 : ℚ) / 32768 }

/- ===================== Public services (geminiService.ts lines 70-550) ===================== -/

/-- generateSpeech (lines 70-110) as a function of the provider response.
hasKey is whether the client `ai` is non-null, audioData is the base64 audio
payload extracted from the response part (none when absent).  An absent or
empty payload throws; otherwise the PCM payload is decoded with a fixed
sample rate of 24000 and 1 channel. -/
def generateSpeechModel (hasKey : Bool) (audioData : Option String) :
    Except String AudioBufferModel :=
  if hasKey = false then Except.error "API Key missing"
  else
    match audioData with
    | none => Except.error "No audio data received from Gemini"
    | some a =>
        if a = "" then Except.error "No audio data received from Gemini"
        else decodeAudioData (decode a) 24000 1

/-- Result construction of analyzeSentence (lines 238-241): spread the parsed
data and set englishSentence to the corrected sentence when a correction is
present, else to the caller's input sentence. -/
def analysisResultOfParsed (parsedData : ParsedAnalysis) (sentence : String) :
    AnalysisResult :=
  { chunks := parsedData.chunks
    detailedTokens := parsedData.detailedTokens
    chineseTranslation := parsedData.chineseTranslation
    correction := parsedData.correction
    sentencePattern := parsedData.sentencePattern
    mainTense := parsedData.mainTense
    englishSentence :=
      match parsedData.correction with
      | some c => c.corrected
      | none => sentence }

/-- Body of the try block in analyzeSentence (lines 161-241): an undefined or
empty response text throws, a JSON.parse failure throws (JSON.parse is a
platform primitive, modelled by the parse oracle), and otherwise the result
record is built.  respText is `response.text` (none when undefined). -/
def analyzeSentenceTry (sentence : String) (respText : Option String)
    (parse : String → Option ParsedAnalysis) : Except String AnalysisResult :=
  let jsonText := respText.getD ""
  if jsonText = "" then Except.error "Empty response from Gemini"
  else
    match parse jsonText with
    | none => Except.error "JSON parse error"
    | some parsedData => Except.ok (analysisResultOfParsed parsedData sentence)

/-- analyzeSentence (lines 112-246): a null client throws immediately;
any exception out of the try block is caught and replaced by the fixed
user-facing message. -/
def analyzeSentenceModel (sentence : String) (hasKey : Bool)
    (respText : Option String) (parse : String → Option ParsedAnalysis) :
    Except String AnalysisResult :=
  if hasKey = false then
    Except.error "API Key is missing. Please check your environment configuration."
  else
    match analyzeSentenceTry sentence respText parse with
    | Except.ok r => Except.ok r
    | Except.error _ => Except.error "无法分析该句子。请检查网络或 API Key 设置。"

/-- Body of the try block in lookupWord (lines 286-344): empty response text
throws, JSON.parse failure throws, otherwise the parsed DictionaryResult is
returned as-is. -/
def lookupWordTry (respText : Option String)
    (parse : String → Option DictionaryResult) : Except String DictionaryResult :=
  let jsonText := respText.getD ""
  if jsonText = "" then Except.error "Empty response"
  else
    match parse jsonText with
    | none => Except.error "JSON parse error"
    | some r => Except.ok r

/-- lookupWord (lines 248-349): a null client throws immediately; any
exception out of the try block is replaced by the fixed message. -/
def lookupWordModel (hasKey : Bool) (respText : Option String)
    (parse : String → Option DictionaryResult) : Except String DictionaryResult :=
  if hasKey = false then Except.error "API Key missing"
  else
    match lookupWordTry respText parse with
    | Except.ok r => Except.ok r
    | Except.error _ => Except.error "无法查询该单词，请重试。"

/-- Body of the try block in evaluateWriting (lines 461-500): empty response
text throws, JSON.parse failure throws, otherwise the WritingResult is built
from the mode and the parsed feedback and segments. -/
def evaluateWritingTry (mode : WritingMode) (respText : Option String)
    (parse : String → Option ParsedWriting) : Except String WritingResult :=
  let jsonText := respText.getD ""
  if jsonText = "" then Except.error "Empty response"
  else
    match parse jsonText with
    | none => Except.error "JSON parse error"
    | some parsed =>
        Except.ok
          { mode := mode
            generalFeedback := parsed.generalFeedback
            segments := parsed.segments }

/-- evaluateWriting (lines 351-506): a null client throws immediately; any
exception out of the try block is replaced by the fixed message. -/
def evaluateWritingModel (mode : WritingMode) (hasKey : Bool)
    (respText : Option String) (parse : String → Option ParsedWriting) :
    Except String WritingResult :=
  if hasKey = false then Except.error "API Key missing"
  else
    match evaluateWritingTry mode respText parse with
    | Except.ok r => Except.ok r
    | Except.error _ => Except.error "写作分析失败，请检查网络或稍后再试。"

inductive ChatContextType where
  | sentence
  | word
  | writing
deriving DecidableEq, Repr

/-- getChatResponse (lines 508-550) as a function of the chat reply text.
Only the key guard affects control flow; the prompt and system-instruction
strings are built unconditionally and do not alter the returned value, so
they are carried here as inert parameters. -/
def getChatResponseModel (hasKey : Bool) (_contextContent : Option String)
    (_contextType : ChatContextType) (replyText : String) : Except String String :=
  if hasKey = false then Except.error "API Key missing"
  else Except.ok replyText

/- ===================== Writing page full text (WritingPage.tsx, App.tsx) ===================== -/

/-- copyFullText (WritingPage.tsx lines 90-94): returns early when there is
no result, otherwise copies `result.segments.map(s => s.text).join('')`.
The value modelled is the string handed to the clipboard. -/
def copyFullText (result : Option WritingResult) : Option String :=
  match result with
  | none => none
  | some r => some (String.join (r.segments.map (fun s => s.text)))

/-- Full text handed to the SyntaxModeTextRenderer (WritingPage.tsx lines
311-317): `result.segments.map(s => s.text).join('')`. -/
def rendererFullText (result : WritingResult) : String :=
  String.join (result.segments.map (fun s => s.text))

/-- Assistant context on the writing tab (App.tsx lines 57-61):
`writingResult?.segments.map(s => s.text).join('') || null`.  The JS
or-operator passes null through for a missing result and also replaces an
empty joined string (falsy) by null. -/
def writingAssistantContext (writingResult : Option WritingResult) : Option String :=
  match writingResult with
  | none => none
  | some r =>
      if String.join (r.segments.map (fun s => s.text)) = "" then none
      else some (String.join (r.segments.map (fun s => s.text)))

/- ===================== ResultDisplay audio cache (ResultDisplay.tsx) ===================== -/

/-- Mutable state of the ResultDisplay audio machinery: the current sentence
ref, the single-slot buffer cache (tagged, as ghost state, with the sentence
the buffer was fetched for; buffers themselves are abstracted to Nat ids),
the stored pending-promise slot (the sentence it is fetching), and the
multisets of in-flight prefetch and playAudio fetches. -/
structure RDState where
  currentSentence : String
  cache : Option (String × Nat)
  pending : Option String
  preInFlight : List String
  playInFlight : List String
deriving DecidableEq, Repr

/-- First half of the prefetch useEffect body (lines 33-36): clear the cache
and the stored promise, then record the new current sentence. -/
def effectCleanup (st : RDState) (s : String) : RDState :=
  { st with cache := none, pending := none, currentSentence := s }

/-- Second half of the effect (lines 38-54): prefetchAudio starts a
generateSpeech fetch for the current sentence and stores its promise. -/
def prefetchStart (st : RDState) : RDState :=
  { st with
    pending := some st.currentSentence
    preInFlight := st.currentSentence :: st.preInFlight }

inductive RDEvent where
  /-- result.englishSentence changes to s and the effect runs. -/
  | resultChange (s : String)
  /-- playAudio is clicked; when the cache is empty it awaits a fetch for the
  current sentence (the stored promise or a fresh call) and will write the
  cache on completion (line 86). -/
  | playStart
  /-- The prefetch fetch for s resolves with buffer buf (lines 43-48): the
  cache is written only if s is still the current sentence. -/
  | prefetchDone (s : String) (buf : Nat)
  /-- The fetch awaited by playAudio for s resolves with buffer buf: line 86
  writes the cache unconditionally. -/
  | playDone (s : String) (buf : Nat)
deriving DecidableEq, Repr

/-- One interleaving step of the ResultDisplay machinery; none means the
event is not enabled in the given state. -/
def stepE (st : RDState) : RDEvent → Option RDState
  | RDEvent.resultChange s => some (prefetchStart (effectCleanup st s))
  | RDEvent.playStart =>
      if st.cache = none then
        some { st with playInFlight := st.currentSentence :: st.playInFlight }
      else some st
  | RDEvent.prefetchDone s buf =>
      if s ∈ st.preInFlight then
        some { st with
               preInFlight := st.preInFlight.erase s
               cache := if st.currentSentence = s then some (s, buf) else st.cache }
      else none
  | RDEvent.playDone s buf =>
      if s ∈ st.playInFlight then
        some { st with playInFlight := st.playInFlight.erase s, cache := some (s, buf) }
      else none

/-- Run a sequence of events from a state. -/
def runTrace (st : RDState) : List RDEvent → Option RDState
  | [] => some st
  | e :: evs =>
      match stepE st e with
      | none => none
      | some st2 => runTrace st2 evs

/-- The claimed invariant: the cache slot holds a buffer only for the current
sentence. -/
def cacheOK (st : RDState) : Bool :=
  match st.cache with
  | none => true
  | some (s, _) => s == st.currentSentence

def isPlayDoneEvent : RDEvent → Bool
  | RDEvent.playDone _ _ => true
  | _ => false

/-- Component state right after mount with initial sentence s (lines 16-20):
empty cache, no stored promise, currentSentenceRef initialised to the
sentence. -/
def rdInit (s : String) : RDState :=
  { currentSentence := s, cache := none, pending := none
    preInFlight := [], playInFlight := [] }

/- ===================== playAudio fetch accounting (ResultDisplay.tsx lines 58-107) ===================== -/

/-- Outcome of an awaited generateSpeech fetch. -/
inductive FetchOutcome where
  | ok (buf : Nat)
  | fail
deriving DecidableEq, Repr

/-- Number of fresh generateSpeech calls one playAudio run issues (lines
67-83), as a function of the cache slot and of the stored prefetch promise
together with its eventual outcome: a cached buffer means no fetch; a stored
promise that resolves is awaited without a new call; a stored promise that
rejects triggers one explicit fresh call; no stored promise means one
fallback call. -/
def playAudioCalls (cache : Option Nat) (stored : Option FetchOutcome) : Nat :=
  match cache with
  | some _ => 0
  | none =>
      match stored with
      | some (FetchOutcome.ok _) => 0
      | some FetchOutcome.fail => 1
      | none => 1

/-- Buffer obtained by one playAudio run (lines 66-106): cache hit, else the
stored promise, else (or on its rejection) one fresh fetch; when everything
fails the catch block surfaces the fixed alert message. -/
def playAudioResult (cache : Option Nat) (stored : Option FetchOutcome)
    (fresh : FetchOutcome) : Except String Nat :=
  match cache with
  | some buf => Except.ok buf
  | none =>
      match stored with
      | some (FetchOutcome.ok buf) => Except.ok buf
      | some FetchOutcome.fail =>
          match fresh with
          | FetchOutcome.ok buf => Except.ok buf
          | FetchOutcome.fail => Except.error "无法播放音频，请稍后再试。"
      | none =>
          match fresh with
          | FetchOutcome.ok buf => Except.ok buf
          | FetchOutcome.fail => Except.error "无法播放音频，请稍后再试。"

/- ===================== Concrete values used by witnesses ===================== -/

/-- A WritingResult whose segment list is empty; its joined text is the empty
string. -/
def wrEmpty : WritingResult :=
  { mode := WritingMode.fix, generalFeedback := "", segments := [] }

/-- A WritingResult with one unchanged segment of nonempty text. -/
def wrOne : WritingResult :=
  { mode := WritingMode.fix, generalFeedback := ""
    segments := [{ type := SegmentType.unchanged, text := "Hello" }] }

/-- A parsed analysis payload carrying a grammar correction. -/
def parsedEx : ParsedAnalysis :=
  { chunks := [], detailedTokens := [], chineseTranslation := ""
    sentencePattern := "", mainTense := ""
    correction := some { original := "i go", corrected := "I go"
                         errorType := "case", reason := "", changes := [] } }

/-- The buffer produced from the two-byte binary payload of two NUL bytes:
one mono frame whose sample is the zero 16-bit value divided by 32768. -/
def audioBufW : AudioBufferModel :=
  { sampleRate := 24000, numChannels := 1, length := 1
    channels := [[((0 : Int) : ℚ) / 32768]] }

/- ===================== Helper lemmas ===================== -/

theorem bytesToInt16_bound :
    ∀ (data : List (Fin 256)), ∀ x ∈ bytesToInt16 data, -32768 ≤ x ∧ x ≤ 32767
  | [] => by intro x hx; simp [bytesToInt16] at hx
  | [b] => by intro x hx; simp [bytesToInt16] at hx
  | lo :: hi :: rest => by
      intro x hx
      simp only [bytesToInt16, List.mem_cons] at hx
      rcases hx with hhead | htail
      · subst hhead
        have h1 : lo.val < 256 := lo.isLt
        have h2 : hi.val < 256 := hi.isLt
        split <;> omega
      · exact bytesToInt16_bound rest x htail

theorem bytesToInt16_length :
    ∀ (data : List (Fin 256)), (bytesToInt16 data).length = data.length / 2
  | [] => rfl
  | [_] => by simp [bytesToInt16]
  | _ :: _ :: rest => by
      simp only [bytesToInt16, List.length_cons, bytesToInt16_length rest]
      omega

theorem getD_mem_or_default (l : List Int) (i : Nat) :
    l.getD i 0 ∈ l ∨ l.getD i 0 = 0 := by
  rcases h : l[i]? with _ | a
  · right
    simp [List.getD, h]
  · left
    have h2 : l.getD i 0 = a := by simp [List.getD, h]
    rw [h2]
    exact List.getElem?_mem h

theorem getD_int_bound (l : List Int) (i : Nat) (lo hi : Int)
    (hl : lo ≤ 0) (hh : 0 ≤ hi) (h : ∀ x ∈ l, lo ≤ x ∧ x ≤ hi) :
    lo ≤ l.getD i 0 ∧ l.getD i 0 ≤ hi := by
  rcases getD_mem_or_default l i with hm | hz
  · exact h _ hm
  · rw [hz]; exact ⟨hl, hh⟩

theorem playAudioCalls_le_one (cache : Option Nat) (stored : Option FetchOutcome) :
    playAudioCalls cache stored ≤ 1 := by
  rcases cache with _ | b
  · rcases stored with _ | o
    · simp [playAudioCalls]
    · rcases o with b | _ <;> simp [playAudioCalls]
  · simp [playAudioCalls]

theorem int16_div_bound (v : Int) (h1 : -32768 ≤ v) (h2 : v ≤ 32767) :
    -1 ≤ (v : ℚ) / 32768 ∧ (v : ℚ) / 32768 ≤ 1 := by
  constructor
  · rw [le_div_iff₀ (by norm_num : (0 : ℚ) < 32768)]
    have : ((-32768 : Int) : ℚ) ≤ (v : ℚ) := by exact_mod_cast h1
    push_cast at this ⊢
    linarith
  · rw [div_le_one (by norm_num : (0 : ℚ) < 32768)]
    have : (v : ℚ) ≤ ((32767 : Int) : ℚ) := by exact_mod_cast h2
    push_cast at this ⊢
    linarith

/- ===================== Claim theorems ===================== -/

/-- Claim C1, counterexample: the chat-assistant writing context does not
compute exactly the positional join of the segment texts.  For a
WritingResult whose segments join to the empty string, the JS or-operator in
App.tsx coerces the joined text to null, while the exact join is the empty
string. -/
theorem fullTextJoin_cex :
    writingAssistantContext (some wrEmpty) ≠
      some (String.join (wrEmpty.segments.map (fun s => s.text))) := by decide

/-- Claim C1 (amended): copyFullText and the syntax-view full text compute
exactly the positional join of the segment texts in index order, and the
chat-assistant writing context equals that same join whenever the join is
nonempty (it is null for an empty join); no other computation touches the
segments, so joining all segment texts in order reconstructs the improved
document. -/
theorem fullTextJoin_amended (r : WritingResult) :
    copyFullText (some r) = some (String.join (r.segments.map (fun s => s.text))) ∧
    rendererFullText r = String.join (r.segments.map (fun s => s.text)) ∧
    (String.join (r.segments.map (fun s => s.text)) ≠ "" →
      writingAssistantContext (some r) =
        some (String.join (r.segments.map (fun s => s.text)))) := by
  refine ⟨rfl, rfl, fun h => ?_⟩
  simp [writingAssistantContext, h]

/-- Witness for C1 at a one-segment result with nonempty text. -/
theorem fullTextJoin_witness :
    writingAssistantContext (some wrOne) =
      some (String.join (wrOne.segments.map (fun s => s.text))) :=
  (fullTextJoin_amended wrOne).2.2 (by decide)

/-- Claim C3: whenever the model response text is empty (undefined or the
empty string) or JSON parsing of the response fails, analyzeSentence,
lookupWord and evaluateWriting each surface their single fixed user-facing
message in the interface language instead of the inner exception. -/
theorem malformedResponse_fixedMessage :
    (∀ s parse r, r = none ∨ r = some "" →
        analyzeSentenceModel s true r parse =
          Except.error "无法分析该句子。请检查网络或 API Key 设置。") ∧
    (∀ s t parse, t ≠ "" → parse t = none →
        analyzeSentenceModel s true (some t) parse =
          Except.error "无法分析该句子。请检查网络或 API Key 设置。") ∧
    (∀ parse r, r = none ∨ r = some "" →
        lookupWordModel true r parse = Except.error "无法查询该单词，请重试。") ∧
    (∀ t parse, t ≠ "" → parse t = none →
        lookupWordModel true (some t) parse =
          Except.error "无法查询该单词，请重试。") ∧
    (∀ mode parse r, r = none ∨ r = some "" →
        evaluateWritingModel mode true r parse =
          Except.error "写作分析失败，请检查网络或稍后再试。") ∧
    (∀ mode t parse, t ≠ "" → parse t = none →
        evaluateWritingModel mode true (some t) parse =
          Except.error "写作分析失败，请检查网络或稍后再试。") := by
  refine ⟨?_, ?_, ?_, ?_, ?_, ?_⟩
  · intro s parse r hr
    rcases hr with rfl | rfl <;> rfl
  · intro s t parse ht hp
    simp [analyzeSentenceModel, analyzeSentenceTry, ht, hp]
  · intro parse r hr
    rcases hr with rfl | rfl <;> rfl
  · intro t parse ht hp
    simp [lookupWordModel, lookupWordTry, ht, hp]
  · intro mode parse r hr
    rcases hr with rfl | rfl <;> rfl
  · intro mode t parse ht hp
    simp [evaluateWritingModel, evaluateWritingTry, ht, hp]

/-- Witness for C3: each of the six failure situations at concrete inputs. -/
theorem malformedResponse_witness :
    analyzeSentenceModel "a" true none (fun _ => none) =
      Except.error "无法分析该句子。请检查网络或 API Key 设置。" ∧
    analyzeSentenceModel "a" true (some "x") (fun _ => none) =
      Except.error "无法分析该句子。请检查网络或 API Key 设置。" ∧
    lookupWordModel true none (fun _ => none) =
      Except.error "无法查询该单词，请重试。" ∧
    lookupWordModel true (some "x") (fun _ => none) =
      Except.error "无法查询该单词，请重试。" ∧
    evaluateWritingModel WritingMode.fix true none (fun _ => none) =
      Except.error "写作分析失败，请检查网络或稍后再试。" ∧
    evaluateWritingModel WritingMode.fix true (some "x") (fun _ => none) =
      Except.error "写作分析失败，请检查网络或稍后再试。" :=
  ⟨malformedResponse_fixedMessage.1 "a" (fun _ => none) none (Or.inl rfl),
   malformedResponse_fixedMessage.2.1 "a" "x" (fun _ => none) (by decide) rfl,
   malformedResponse_fixedMessage.2.2.1 (fun _ => none) none (Or.inl rfl),
   malformedResponse_fixedMessage.2.2.2.1 "x" (fun _ => none) (by decide) rfl,
   malformedResponse_fixedMessage.2.2.2.2.1 WritingMode.fix (fun _ => none) none (Or.inl rfl),
   malformedResponse_fixedMessage.2.2.2.2.2 WritingMode.fix "x" (fun _ => none) (by decide) rfl⟩

/-- Claim C5, counterexample: for modelLevel mini the request does not carry
a thinkingConfig with that tier's budget 0; the conditional
`thinkingBudget > 0` omits thinkingConfig entirely. -/
theorem thinkingBudget_cex :
    (analyzeSentenceRequest ModelLevel.mini).thinkingConfig ≠
      some (getModelConfig ModelLevel.mini).thinkingBudget := by decide

/-- Claim C5 (amended): the three tiers map to thinking budgets 0, 500 and
2000; for quick and deep every request carries a thinkingConfig with exactly
that budget, while for mini the request omits thinkingConfig (it is
undefined), in all three text operations. -/
theorem thinkingBudget_amended :
    (getModelConfig ModelLevel.mini).thinkingBudget = 0 ∧
    (getModelConfig ModelLevel.quick).thinkingBudget = 500 ∧
    (getModelConfig ModelLevel.deep).thinkingBudget = 2000 ∧
    (analyzeSentenceRequest ModelLevel.mini).thinkingConfig = none ∧
    (analyzeSentenceRequest ModelLevel.quick).thinkingConfig = some 500 ∧
    (analyzeSentenceRequest ModelLevel.deep).thinkingConfig = some 2000 ∧
    (lookupWordRequest ModelLevel.mini).thinkingConfig = none ∧
    (lookupWordRequest ModelLevel.quick).thinkingConfig = some 500 ∧
    (lookupWordRequest ModelLevel.deep).thinkingConfig = some 2000 ∧
    (evaluateWritingRequest ModelLevel.mini).thinkingConfig = none ∧
    (evaluateWritingRequest ModelLevel.quick).thinkingConfig = some 500 ∧
    (evaluateWritingRequest ModelLevel.deep).thinkingConfig = some 2000 := by
  decide

/-- Claim C6: when API_KEY is unset the client is null, and every one of the
five service operations fails immediately with its key-missing error, for
every possible network response, so no network request is consulted. -/
theorem missingKey_fatal :
    aiInit none = false ∧
    (∀ audioData,
        generateSpeechModel (aiInit none) audioData = Except.error "API Key missing") ∧
    (∀ s respText parse,
        analyzeSentenceModel s (aiInit none) respText parse =
          Except.error "API Key is missing. Please check your environment configuration.") ∧
    (∀ respText parse,
        lookupWordModel (aiInit none) respText parse = Except.error "API Key missing") ∧
    (∀ mode respText parse,
        evaluateWritingModel mode (aiInit none) respText parse =
          Except.error "API Key missing") ∧
    (∀ cc ct reply,
        getChatResponseModel (aiInit none) cc ct reply = Except.error "API Key missing") :=
  ⟨rfl, fun _ => rfl, fun _ _ _ => rfl, fun _ _ => rfl, fun _ _ _ => rfl,
   fun _ _ _ => rfl⟩

/-- Claim C7, counterexample: when the stored prefetch promise for the
current sentence has failed, playAudio issues one more generateSpeech call
for that same sentence within the same user action, so a failed fetch is
retried once rather than surfaced with no retry. -/
theorem noRetry_cex :
    playAudioCalls none (some FetchOutcome.fail) = 1 ∧
    ¬ playAudioCalls none (some FetchOutcome.fail) = 0 := by decide

/-- Claim C7 (amended): failures surface without retry in every code path
except one: when the stored prefetch promise has failed, playAudio issues
exactly one fresh generateSpeech call for the same sentence; a playAudio run
never issues more than one fresh call, and if the fresh call also fails the
fixed alert message surfaces with no further retry. -/
theorem noRetry_amended :
    (∀ cache stored, playAudioCalls cache stored ≤ 1) ∧
    playAudioCalls none (some FetchOutcome.fail) = 1 ∧
    (∀ b, playAudioResult none (some FetchOutcome.fail) (FetchOutcome.ok b) =
        Except.ok b) ∧
    playAudioResult none (some FetchOutcome.fail) FetchOutcome.fail =
      Except.error "无法播放音频，请稍后再试。" :=
  ⟨playAudioCalls_le_one, rfl, fun _ => rfl, rfl⟩

/-- Claim C8: when the cache is empty and the stored prefetch promise for
the current sentence resolves, playAudio awaits that promise and issues no
generateSpeech call of its own, and a playAudio run starts a fresh fetch
only when no promise is stored or the stored fetch has failed; hence at most
one speech fetch is in flight for a given current sentence unless the stored
fetch failed. -/
theorem sharedInFlightFetch (b : Nat) (fresh : FetchOutcome) :
    playAudioCalls none (some (FetchOutcome.ok b)) = 0 ∧
    playAudioResult none (some (FetchOutcome.ok b)) fresh = Except.ok b ∧
    (∀ cache stored, 0 < playAudioCalls cache stored →
        cache = none ∧ ∀ b2, stored ≠ some (FetchOutcome.ok b2)) := by
  refine ⟨rfl, rfl, ?_⟩
  intro cache stored h
  rcases cache with _ | bc
  · rcases stored with _ | o
    · exact ⟨rfl, by simp⟩
    · rcases o with b2 | _
      · simp [playAudioCalls] at h
      · exact ⟨rfl, by simp⟩
  · simp [playAudioCalls] at h

/-- Witness for C8 at buffer id 7 with a failing stored fetch enabling the
fresh-call characterisation. -/
theorem sharedInFlightFetch_witness :
    playAudioCalls none (some (FetchOutcome.ok 7)) = 0 ∧
    ((none : Option Nat) = none ∧
      ∀ b2, (none : Option FetchOutcome) ≠ some (FetchOutcome.ok b2)) :=
  ⟨(sharedInFlightFetch 7 FetchOutcome.fail).1,
   (sharedInFlightFetch 7 FetchOutcome.fail).2.2 none none (by decide)⟩

/-- Claim C9: a successful analyzeSentence call returns a result whose
englishSentence is the corrected sentence of the parsed correction when one
is present, and the unchanged input sentence when none is present. -/
theorem analyzeCorrectedSentence (sentence t : String)
    (parse : String → Option ParsedAnalysis) (p : ParsedAnalysis)
    (ht : t ≠ "") (hp : parse t = some p) :
    analyzeSentenceModel sentence true (some t) parse =
      Except.ok (analysisResultOfParsed p sentence) ∧
    (∀ c, p.correction = some c →
        (analysisResultOfParsed p sentence).englishSentence = c.corrected) ∧
    (p.correction = none →
        (analysisResultOfParsed p sentence).englishSentence = sentence) := by
  refine ⟨?_, ?_, ?_⟩
  · simp [analyzeSentenceModel, analyzeSentenceTry, ht, hp]
  · intro c hc
    simp [analysisResultOfParsed, hc]
  · intro hc
    simp [analysisResultOfParsed, hc]

/-- Witness for C9 at a parsed payload carrying a correction. -/
theorem analyzeCorrectedSentence_witness :
    analyzeSentenceModel "i go" true (some "x") (fun _ => some parsedEx) =
      Except.ok (analysisResultOfParsed parsedEx "i go") ∧
    (analysisResultOfParsed parsedEx "i go").englishSentence = "I go" := by
  have h := analyzeCorrectedSentence "i go" "x" (fun _ => some parsedEx) parsedEx
    (by decide) rfl
  exact ⟨h.1, h.2.1 _ rfl⟩

/-- Claim C2: every sample generateSpeech produces from a decoded byte
stream lies in the interval from -1 to 1 (each frame is a signed 16-bit
value divided by 32768), and the decoder is always invoked with sample rate
24000 and one channel. -/
theorem speechSamplesInRange (audioBinary : String) (buf : AudioBufferModel)
    (h : generateSpeechModel true (some audioBinary) = Except.ok buf) :
    buf.sampleRate = 24000 ∧ buf.numChannels = 1 ∧
    ∀ ch ∈ buf.channels, ∀ x ∈ ch, -1 ≤ x ∧ x ≤ 1 := by
  by_cases ha : audioBinary = ""
  · simp [generateSpeechModel, ha] at h
  · simp only [generateSpeechModel] at h
    rw [if_neg (by simp)] at h
    rw [if_neg ha] at h
    unfold decodeAudioData at h
    split at h
    · exact absurd h (by simp)
    · rw [Except.ok.injEq] at h
      subst h
      refine ⟨rfl, rfl, ?_⟩
      intro ch hch x hx
      simp only [List.mem_map, List.mem_range] at hch
      obtain ⟨c, hc, rfl⟩ := hch
      simp only [List.mem_map, List.mem_range] at hx
      obtain ⟨i, hi, rfl⟩ := hx
      have hb := getD_int_bound (bytesToInt16 (decode audioBinary)) (i * 1 + c)
        (-32768) 32767 (by norm_num) (by norm_num) (bytesToInt16_bound _)
      exact int16_div_bound _ hb.1 hb.2

deriving instance DecidableEq for Except

/-- Witness for C2 at the two-byte all-zero PCM payload. -/
theorem speechSamplesInRange_witness :
    generateSpeechModel true (some "\x00\x00") = Except.ok audioBufW ∧
    (audioBufW.sampleRate = 24000 ∧ audioBufW.numChannels = 1 ∧
      ∀ ch ∈ audioBufW.channels, ∀ x ∈ ch, -1 ≤ x ∧ x ≤ 1) :=
  ⟨by rfl, speechSamplesInRange "\x00\x00" audioBufW (by rfl)⟩

/-- Claim C10: decode yields one byte per character of the base64-decoded
binary string; an odd byte count makes the Int16Array construction inside
decodeAudioData throw; an even byte count succeeds with a mono frame count
of half the byte count. -/
theorem pcmDecodeTotality :
    (∀ s : String, (decode s).length = s.length) ∧
    (∀ (data : List (Fin 256)) (sr nc : Nat), data.length % 2 = 1 →
        decodeAudioData data sr nc =
          Except.error "byte length of Int16Array should be a multiple of 2") ∧
    (∀ (data : List (Fin 256)) (sr : Nat), data.length % 2 = 0 →
        (decodeAudioData data sr 1).map (fun buf => buf.length) =
          Except.ok (data.length / 2)) := by
  refine ⟨?_, ?_, ?_⟩
  · intro s
    cases s with
    | mk data => simp [decode, String.length]
  · intro data sr nc h
    simp [decodeAudioData, h]
  · intro data sr h
    simp [decodeAudioData, h, Except.map, bytesToInt16_length, Nat.div_one]

/-- Witness for C10: a one-byte payload throws, a two-byte payload decodes
to one mono frame. -/
theorem pcmDecodeTotality_witness :
    decodeAudioData [(0 : Fin 256)] 24000 1 =
      Except.error "byte length of Int16Array should be a multiple of 2" ∧
    (decodeAudioData [(0 : Fin 256), (1 : Fin 256)] 24000 1).map
        (fun buf => buf.length) =
      Except.ok (([(0 : Fin 256), (1 : Fin 256)] : List (Fin 256)).length / 2) :=
  ⟨pcmDecodeTotality.2.1 [0] 24000 1 (by decide),
   pcmDecodeTotality.2.2 [0, 1] 24000 (by decide)⟩

theorem stepE_preserves_cacheOK (st st2 : RDState) (e : RDEvent)
    (he : isPlayDoneEvent e = false) (h : cacheOK st = true)
    (hs : stepE st e = some st2) : cacheOK st2 = true := by
  cases e with
  | resultChange s =>
      simp only [stepE, Option.some.injEq] at hs
      subst hs
      simp [cacheOK, prefetchStart, effectCleanup]
  | playStart =>
      simp only [stepE] at hs
      split at hs
      · rename_i hc
        simp only [Option.some.injEq] at hs
        subst hs
        simp [cacheOK, hc]
      · simp only [Option.some.injEq] at hs
        subst hs
        exact h
  | prefetchDone s buf =>
      simp only [stepE] at hs
      split at hs
      · simp only [Option.some.injEq] at hs
        subst hs
        by_cases hcur : st.currentSentence = s
        · subst hcur
          simp [cacheOK]
        · simp only [cacheOK, if_neg hcur]
          simpa [cacheOK] using h
      · exact absurd hs (by simp)
  | playDone s buf =>
      simp [isPlayDoneEvent] at he

theorem runTrace_preserves_cacheOK :
    ∀ (evs : List RDEvent) (st st2 : RDState),
      (∀ e ∈ evs, isPlayDoneEvent e = false) → cacheOK st = true →
      runTrace st evs = some st2 → cacheOK st2 = true
  | [], st, st2, _, h, hr => by
      simp only [runTrace, Option.some.injEq] at hr
      subst hr
      exact h
  | e :: evs, st, st2, hall, h, hr => by
      simp only [runTrace] at hr
      cases hs : stepE st e with
      | none =>
          rw [hs] at hr
          simp at hr
      | some stm =>
          rw [hs] at hr
          exact runTrace_preserves_cacheOK evs stm st2
            (fun x hx => hall x (List.mem_cons_of_mem _ hx))
            (stepE_preserves_cacheOK st stm e (hall e (List.mem_cons_self _ _)) h hs) hr

/-- Claim C4, counterexample: a playAudio fetch started for sentence A and
resolving after the active sentence has changed to B writes its buffer into
the cache without the still-current guard (ResultDisplay.tsx line 86), so
the reachable state below caches a buffer for A while the current sentence
is B, violating the claimed at-every-point invariant. -/
theorem audioCacheInvariant_cex :
    runTrace (rdInit "A")
        [RDEvent.resultChange "A", RDEvent.playStart,
         RDEvent.resultChange "B", RDEvent.playDone "A" 0] =
      some { currentSentence := "B", cache := some ("A", 0), pending := some "B",
             preInFlight := ["B", "A"], playInFlight := [] } ∧
    cacheOK { currentSentence := "B", cache := some ("A", 0), pending := some "B",
              preInFlight := ["B", "A"], playInFlight := [] } = false := by decide

/-- Claim C4 (amended): whenever the active sentence changes, the effect
resets the cached buffer and the stored pending promise to null before the
fresh fetch starts, and a prefetch-fetched buffer is written into the cache
only if its sentence is still current; hence along every execution that
contains no playAudio fetch completion the cache slot holds a buffer only
for the current sentence.  (playAudio writes its fetched buffer without the
guard, so a playAudio fetch resolving after a sentence change can cache a
stale buffer.) -/
theorem audioCacheInvariant_amended :
    (∀ st s, (effectCleanup st s).cache = none ∧ (effectCleanup st s).pending = none) ∧
    (∀ (evs : List RDEvent) (st st2 : RDState),
        (∀ e ∈ evs, isPlayDoneEvent e = false) → cacheOK st = true →
        runTrace st evs = some st2 → cacheOK st2 = true) :=
  ⟨fun _ _ => ⟨rfl, rfl⟩, runTrace_preserves_cacheOK⟩

/-- Witness for C4: a prefetch-only trace for sentence A ends in a state
whose cache holds a buffer for the current sentence. -/
theorem audioCacheInvariant_witness :
    cacheOK { currentSentence := "A", cache := some ("A", 3), pending := some "A",
              preInFlight := [], playInFlight := [] } = true :=
  audioCacheInvariant_amended.2
    [RDEvent.resultChange "A", RDEvent.prefetchDone "A" 3] (rdInit "")
    { currentSentence := "A", cache := some ("A", 3), pending := some "A",
      preInFlight := [], playInFlight := [] }
    (by decide) (by decide) (by decide)
